import Mathlib

/-!
Verification of the game-record aggregation logic of the NBA reports
repository.  The definitions below are shallow embeddings of the pure
computational parts of

  * src/data/collectors/rolling_stats.py  (class RollingStatsCollector)
  * src/data/collectors/game_header.py    (class GameHeaderCollector)

Python dictionaries obtained from the upstream API are modelled as Lean
structures whose fields are `Option`-valued exactly where the source code
accesses them through `dict.get` with a default (a missing key is `none`).
Python float arithmetic on per-game averages is idealised as rational
arithmetic (`ℚ`), and `round(x, 1)` as exact round-half-to-even at one
decimal place.  Python string comparison is code-point lexicographic and is
embedded by the structural function `lexLt` below.  Python `list.sort` is a
stable sort; it is embedded by the stable insertion sort `insertionSort`,
which computes the same function as any stable sort with the same
comparator.
-/

/-- Code-point lexicographic strict order on character lists: the order
Python uses to compare `str` values (shorter strict prefixes sort first). -/
def lexLt : List Char → List Char → Bool
  | _, [] => false
  | [], _ :: _ => true
  | a :: as, b :: bs =>
      a.toNat < b.toNat || (a.toNat = b.toNat && lexLt as bs)

/-- Python string comparison `a < b`. -/
def strLt (a b : String) : Bool := lexLt a.toList b.toList

theorem lexLt_irrefl (a : List Char) : lexLt a a = false := by
  induction a with
  | nil => rfl
  | cons x xs ih => simp [lexLt, ih]

theorem lexLt_trans : ∀ a b c : List Char,
    lexLt a b = true → lexLt b c = true → lexLt a c = true := by
  intro a
  induction a with
  | nil =>
      intro b c hab hbc
      cases b with
      | nil => simp [lexLt] at hab
      | cons y ys =>
          cases c with
          | nil => simp [lexLt] at hbc
          | cons z zs => simp [lexLt]
  | cons x xs ih =>
      intro b c hab hbc
      cases b with
      | nil => simp [lexLt] at hab
      | cons y ys =>
          cases c with
          | nil => simp [lexLt] at hbc
          | cons z zs =>
              simp [lexLt] at hab hbc ⊢
              rcases hab with h1 | ⟨he1, h1⟩
              · rcases hbc with h2 | ⟨he2, h2⟩
                · exact Or.inl (Nat.lt_trans h1 h2)
                · exact Or.inl (he2 ▸ h1)
              · rcases hbc with h2 | ⟨he2, h2⟩
                · exact Or.inl (he1 ▸ h2)
                · exact Or.inr ⟨he1.trans he2, ih ys zs h1 h2⟩

theorem lexLt_false_of_false : ∀ a b c : List Char,
    lexLt b a = false → lexLt c b = false → lexLt c a = false := by
  intro a
  induction a with
  | nil =>
      intro b c _ _
      cases c <;> rfl
  | cons x xs ih =>
      intro b c hba hcb
      cases b with
      | nil => simp [lexLt] at hba
      | cons y ys =>
          cases c with
          | nil => simp [lexLt] at hcb
          | cons z zs =>
              simp [lexLt] at hba hcb ⊢
              obtain ⟨h1, h2⟩ := hba
              obtain ⟨h3, h4⟩ := hcb
              refine ⟨by omega, fun hzx => ?_⟩
              exact ih ys zs (h2 (by omega)) (h4 (by omega))

/-- Stable insertion of an element into a list: the new element is placed
before the first existing element it compares less-or-equal to. -/
def insertLe {α : Type} (le : α → α → Bool) (a : α) : List α → List α
  | [] => [a]
  | b :: bs => if le a b then a :: b :: bs else b :: insertLe le a bs

/-- Stable sort, modelling Python list.sort with comparator le
(a stable sort is determined extensionally by its comparator). -/
def insertionSort {α : Type} (le : α → α → Bool) : List α → List α
  | [] => []
  | a :: as => insertLe le a (insertionSort le as)

theorem mem_insertLe {α : Type} (le : α → α → Bool) (a x : α) :
    ∀ l : List α, x ∈ insertLe le a l ↔ x = a ∨ x ∈ l := by
  intro l
  induction l with
  | nil => simp [insertLe]
  | cons b bs ih =>
      by_cases h : le a b = true
      · simp [insertLe, h]
      · simp only [insertLe, if_neg h, List.mem_cons, ih]
        tauto

theorem mem_insertionSort {α : Type} (le : α → α → Bool) (x : α) :
    ∀ l : List α, x ∈ insertionSort le l ↔ x ∈ l := by
  intro l
  induction l with
  | nil => simp [insertionSort]
  | cons a as ih => simp [insertionSort, mem_insertLe, ih]

theorem pairwise_insertLe {α : Type} (le : α → α → Bool)
    (htrans : ∀ x y z, le x y = true → le y z = true → le x z = true)
    (htot : ∀ x y, le x y = true ∨ le y x = true) (a : α) :
    ∀ l : List α, List.Pairwise (fun x y => le x y = true) l →
      List.Pairwise (fun x y => le x y = true) (insertLe le a l) := by
  intro l
  induction l with
  | nil => intro _; simp [insertLe]
  | cons b bs ih =>
      intro hp
      rcases List.pairwise_cons.mp hp with ⟨hb, hbs⟩
      by_cases h : le a b = true
      · simp only [insertLe, if_pos h]
        refine List.pairwise_cons.mpr ⟨?_, hp⟩
        intro y hy
        rcases List.mem_cons.mp hy with h1 | h1
        · exact h1 ▸ h
        · exact htrans a b y h (hb y h1)
      · simp only [insertLe, if_neg h]
        refine List.pairwise_cons.mpr ⟨?_, ih hbs⟩
        intro y hy
        rcases (mem_insertLe le a y _).mp hy with h1 | h1
        · rcases htot a b with hab | hba
          · exact absurd hab h
          · exact h1 ▸ hba
        · exact hb y h1

theorem pairwise_insertionSort {α : Type} (le : α → α → Bool)
    (htrans : ∀ x y z, le x y = true → le y z = true → le x z = true)
    (htot : ∀ x y, le x y = true ∨ le y x = true) :
    ∀ l : List α, List.Pairwise (fun x y => le x y = true) (insertionSort le l) := by
  intro l
  induction l with
  | nil => simp [insertionSort]
  | cons a as ih => exact pairwise_insertLe le htrans htot a _ ih

/-- Exact round-half-to-even on the rationals, the idealisation of the
rounding mode of Python round. -/
def roundHalfEven (q : ℚ) : ℤ :=
  if Int.fract q < 1/2 then ⌊q⌋
  else if 1/2 < Int.fract q then ⌊q⌋ + 1
  else if 2 ∣ ⌊q⌋ then ⌊q⌋ else ⌊q⌋ + 1

/-- Python round(x, 1): round to one decimal place. -/
def roundTo1 (q : ℚ) : ℚ := (roundHalfEven (q * 10) : ℚ) / 10

theorem roundHalfEven_intCast (z : ℤ) : roundHalfEven (z : ℚ) = z := by
  have h1 : Int.fract (z : ℚ) = 0 := Int.fract_intCast z
  have h2 : (⌊(z : ℚ)⌋ : ℤ) = z := Int.floor_intCast z
  simp [roundHalfEven, h1, h2]

theorem roundTo1_intCast (z : ℤ) : roundTo1 (z : ℚ) = z := by
  have h : ((z : ℚ) * 10) = ((z * 10 : ℤ) : ℚ) := by push_cast; ring
  rw [roundTo1, h, roundHalfEven_intCast]
  push_cast
  ring

theorem roundTo1_zero : roundTo1 0 = 0 := by
  simpa using roundTo1_intCast 0

theorem roundTo1_natCast (n : ℕ) : roundTo1 (n : ℚ) = n := by
  simpa using roundTo1_intCast (n : ℤ)

/-- Final score block of a game (the score dict of the games endpoint);
a field is none when the key is missing (the code reads the fields with
dict.get and default 0). -/
structure ScoreData where
  awayScoreTotal : Option Int
  homeScoreTotal : Option Int
deriving DecidableEq

/-- The parts of one entry of data.games that the collectors read.
score is none when the game has no score dict or an empty one (Python
falsiness of the default); awayTeam and homeTeam hold the abbreviation
fields and are none when absent; gameId embeds schedule id as a string
with the empty string standing for a missing id; startTime is the
schedule date-time field. -/
structure Game where
  playedStatus : Option String
  awayTeam : Option String
  homeTeam : Option String
  gameId : String
  startTime : Option String
  score : Option ScoreData
deriving DecidableEq

/-- Score dict with no keys: every lookup falls back to the default 0. -/
def noScore : ScoreData := { awayScoreTotal := none, homeScoreTotal := none }

/-- away_score = score.get(awayScoreTotal, 0) in the source. -/
def Game.awayPts (g : Game) : Int := (g.score.getD noScore).awayScoreTotal.getD 0

/-- home_score = score.get(homeScoreTotal, 0) in the source. -/
def Game.homePts (g : Game) : Int := (g.score.getD noScore).homeScoreTotal.getD 0

/-- The completion test shared by every loop of game_header.py:
a game is skipped unless it has a (truthy) score and playedStatus
COMPLETED. -/
def isCompleted (g : Game) : Bool :=
  g.score.isSome && (g.playedStatus == some "COMPLETED")

/-- The box-score fields of one team game log read by
RollingStatsCollector.calculate_averages; every field is none when the
corresponding key is missing from its sub-dict (offense, defense,
fieldGoals, freeThrows, rebounds). -/
structure StatsBlock where
  pts : Option Int
  ast : Option Int
  ptsAgainst : Option Int
  stl : Option Int
  blk : Option Int
  tov : Option Int
  fgMade : Option Int
  fgAtt : Option Int
  fg3PtMade : Option Int
  fg3PtAtt : Option Int
  fg2PtMade : Option Int
  fg2PtAtt : Option Int
  ftMade : Option Int
  ftAtt : Option Int
  offReb : Option Int
  defReb : Option Int
  reb : Option Int
deriving DecidableEq

/-- One entry of data.gamelogs: the game start time (empty string when
the key is missing, as in log.get(game, default).get(startTime, default))
and the stats block (none when the stats key is missing). -/
structure GameLog where
  startTime : String
  stats : Option StatsBlock
deriving DecidableEq

/-- A stats dict with no keys present. -/
def emptyStatsBlock : StatsBlock :=
  { pts := none, ast := none, ptsAgainst := none, stl := none, blk := none,
    tov := none, fgMade := none, fgAtt := none, fg3PtMade := none,
    fg3PtAtt := none, fg2PtMade := none, fg2PtAtt := none, ftMade := none,
    ftAtt := none, offReb := none, defReb := none, reb := none }

/-- Embeds the date normalisation of get_team_game_logs:
game.get(startTime, default)[:10] with the dashes removed, yielding
YYYYMMDD. -/
def toYYYYMMDD (s : String) : String :=
  String.mk ((s.toList.take 10).filter (fun c => c ≠ '-'))

/-- The date filter of get_team_game_logs (rolling_stats.py line 97):
keep a log exactly when its YYYYMMDD date is strictly less than the
target date. -/
def filterBeforeDate (beforeDate : String) (logs : List GameLog) : List GameLog :=
  logs.filter (fun log => strLt (toYYYYMMDD log.startTime) beforeDate)

/-- The pure part of get_team_game_logs: filter the logs strictly before
the date, sort by startTime descending (most recent first, Python
list.sort with reverse true), and keep the first 12. -/
def getTeamGameLogs (beforeDate : String) (logs : List GameLog) : List GameLog :=
  (insertionSort (fun a b => ! strLt a.startTime b.startTime)
      (filterBeforeDate beforeDate logs)).take 12

/-- The running totals accumulated by calculate_averages. -/
structure Totals where
  (pts ptsAgainst fgMade fgAtt fg3Made fg3Att fg2Made fg2Att ftMade ftAtt : Int)
  (offReb defReb reb ast stl blk tov : Int)
deriving DecidableEq

def zeroTotals : Totals :=
  { pts := 0, ptsAgainst := 0, fgMade := 0, fgAtt := 0, fg3Made := 0,
    fg3Att := 0, fg2Made := 0, fg2Att := 0, ftMade := 0, ftAtt := 0,
    offReb := 0, defReb := 0, reb := 0, ast := 0, stl := 0, blk := 0, tov := 0 }

/-- One iteration of the summing loop of calculate_averages
(rolling_stats.py lines 131-182).  Every stat is read with dict.get and
default 0; the two-point stats are taken directly when both keys are
present in the fieldGoals dict and otherwise derived as total field goals
minus three-pointers. -/
def addLog (t : Totals) (log : GameLog) : Totals :=
  let s := log.stats.getD emptyStatsBlock
  let fg2 : Int × Int :=
    if s.fg2PtMade.isSome && s.fg2PtAtt.isSome then
      (s.fg2PtMade.getD 0, s.fg2PtAtt.getD 0)
    else
      (s.fgMade.getD 0 - s.fg3PtMade.getD 0, s.fgAtt.getD 0 - s.fg3PtAtt.getD 0)
  { pts := t.pts + s.pts.getD 0,
    ptsAgainst := t.ptsAgainst + s.ptsAgainst.getD 0,
    fgMade := t.fgMade + s.fgMade.getD 0,
    fgAtt := t.fgAtt + s.fgAtt.getD 0,
    fg3Made := t.fg3Made + s.fg3PtMade.getD 0,
    fg3Att := t.fg3Att + s.fg3PtAtt.getD 0,
    fg2Made := t.fg2Made + fg2.1,
    fg2Att := t.fg2Att + fg2.2,
    ftMade := t.ftMade + s.ftMade.getD 0,
    ftAtt := t.ftAtt + s.ftAtt.getD 0,
    offReb := t.offReb + s.offReb.getD 0,
    defReb := t.defReb + s.defReb.getD 0,
    reb := t.reb + s.reb.getD 0,
    ast := t.ast + s.ast.getD 0,
    stl := t.stl + s.stl.getD 0,
    blk := t.blk + s.blk.getD 0,
    tov := t.tov + s.tov.getD 0 }

def totalsOf (logs : List GameLog) : Totals := logs.foldl addLog zeroTotals

/-- The output structure of calculate_averages: the 21 statistical
fields (per-game averages and shooting percentages, rationals standing
for the Python floats) plus the games_included count.  Both the averaged
and the empty branch of the source populate exactly these fields, so a
uniform shape is guaranteed by this single type. -/
structure Stats where
  (ps pa fg fga fg_pct three_p three_pa three_pct : ℚ)
  (two_p two_pa two_pct ft fta ft_pct : ℚ)
  (orb drb trb ast stl blk tov : ℚ)
  (games_included : Nat)
deriving DecidableEq

/-- RollingStatsCollector._empty_stats: every field 0. -/
def emptyStats : Stats :=
  { ps := 0, pa := 0, fg := 0, fga := 0, fg_pct := 0, three_p := 0,
    three_pa := 0, three_pct := 0, two_p := 0, two_pa := 0, two_pct := 0,
    ft := 0, fta := 0, ft_pct := 0, orb := 0, drb := 0, trb := 0,
    ast := 0, stl := 0, blk := 0, tov := 0, games_included := 0 }

/-- RollingStatsCollector.calculate_averages (rolling_stats.py lines
106-210): for the empty list return the empty structure; otherwise take
the first min(num_games, len) logs, and if that slice is empty return
the empty structure, else divide the summed totals by the slice length
and round each average to one decimal, guarding every percentage by a
positive-attempts test. -/
def calculateAverages (gameLogs : List GameLog) (numGames : Nat) : Stats :=
  if gameLogs.length = 0 then emptyStats
  else
    let gamesToAvg := gameLogs.take (min numGames gameLogs.length)
    let actualGames := gamesToAvg.length
    if actualGames = 0 then emptyStats
    else
      let t := totalsOf gamesToAvg
      let n : ℚ := (actualGames : ℚ)
      { ps := roundTo1 ((t.pts : ℚ) / n),
        pa := roundTo1 ((t.ptsAgainst : ℚ) / n),
        fg := roundTo1 ((t.fgMade : ℚ) / n),
        fga := roundTo1 ((t.fgAtt : ℚ) / n),
        fg_pct := roundTo1 (if 0 < t.fgAtt then (t.fgMade : ℚ) / (t.fgAtt : ℚ) * 100 else 0),
        three_p := roundTo1 ((t.fg3Made : ℚ) / n),
        three_pa := roundTo1 ((t.fg3Att : ℚ) / n),
        three_pct := roundTo1 (if 0 < t.fg3Att then (t.fg3Made : ℚ) / (t.fg3Att : ℚ) * 100 else 0),
        two_p := roundTo1 ((t.fg2Made : ℚ) / n),
        two_pa := roundTo1 ((t.fg2Att : ℚ) / n),
        two_pct := roundTo1 (if 0 < t.fg2Att then (t.fg2Made : ℚ) / (t.fg2Att : ℚ) * 100 else 0),
        ft := roundTo1 ((t.ftMade : ℚ) / n),
        fta := roundTo1 ((t.ftAtt : ℚ) / n),
        ft_pct := roundTo1 (if 0 < t.ftAtt then (t.ftMade : ℚ) / (t.ftAtt : ℚ) * 100 else 0),
        orb := roundTo1 ((t.offReb : ℚ) / n),
        drb := roundTo1 ((t.defReb : ℚ) / n),
        trb := roundTo1 ((t.reb : ℚ) / n),
        ast := roundTo1 ((t.ast : ℚ) / n),
        stl := roundTo1 ((t.stl : ℚ) / n),
        blk := roundTo1 ((t.blk : ℚ) / n),
        tov := roundTo1 ((t.tov : ℚ) / n),
        games_included := actualGames }

/-- The four home/away tallies of _calculate_home_away_records. -/
structure HomeAwayRecord where
  (homeWins homeLosses awayWins awayLosses : Nat)
deriving DecidableEq

def zeroHomeAway : HomeAwayRecord :=
  { homeWins := 0, homeLosses := 0, awayWins := 0, awayLosses := 0 }

/-- One iteration of the loop of _calculate_home_away_records
(game_header.py lines 166-191): skip games without score or not
COMPLETED; a game with the team away goes to the away tally, won on a
strict greater-than of the away score, lost otherwise; a game with the
team at home goes to the home tally symmetrically; a completed game not
involving the team is ignored. -/
def homeAwayStep (team : String) (r : HomeAwayRecord) (g : Game) : HomeAwayRecord :=
  if g.score = none ∨ g.playedStatus ≠ some "COMPLETED" then r
  else if g.awayTeam = some team then
    if g.awayPts > g.homePts then { r with awayWins := r.awayWins + 1 }
    else { r with awayLosses := r.awayLosses + 1 }
  else if g.homeTeam = some team then
    if g.homePts > g.awayPts then { r with homeWins := r.homeWins + 1 }
    else { r with homeLosses := r.homeLosses + 1 }
  else r

/-- The pure aggregation of _calculate_home_away_records over the games
returned by the API. -/
def calculateHomeAwayRecords (team : String) (games : List Game) : HomeAwayRecord :=
  games.foldl (homeAwayStep team) zeroHomeAway

/-- A completed game in which the team of interest participates: the
games the home/away loop tallies. -/
def completedInvolving (team : String) (g : Game) : Bool :=
  isCompleted g && (g.awayTeam == some team || g.homeTeam == some team)

/-- The vs-Eastern and vs-Western tallies of
_calculate_vs_conference_records. -/
structure VsConfRecord where
  (easternWins easternLosses westernWins westernLosses : Nat)
deriving DecidableEq

def zeroVsConf : VsConfRecord :=
  { easternWins := 0, easternLosses := 0, westernWins := 0, westernLosses := 0 }

/-- The two-stage conference lookup of game_header.py lines 224-230
(and the analogous division lookup): convert the opponent abbreviation
to the common form and read the classification table, falling back to
the original abbreviation; a missing opponent abbreviation (none) never
resolves, exactly as Python dict.get on a None key. -/
def lookupClass (toCommon : String → String) (classOf : String → Option String)
    (opp : Option String) : Option String :=
  match opp with
  | none => none
  | some o =>
      match classOf (toCommon o) with
      | some c => some c
      | none => classOf o

/-- One iteration of the loop of _calculate_vs_conference_records
(game_header.py lines 210-255), parametrised by the abbreviation
conversion and the conference column of the team_info table: skip
non-completed games and games whose opponent has no resolvable
conference; determine the opponent as the home team when the team of
interest is away and the away team otherwise; the win test is a strict
greater-than of the score of the side the team of interest is assumed
to be on; tally into the bucket of the opponent conference. -/
def vsConfStep (toCommon : String → String) (confOf : String → Option String)
    (team : String) (r : VsConfRecord) (g : Game) : VsConfRecord :=
  if g.score = none ∨ g.playedStatus ≠ some "COMPLETED" then r
  else
    let opponent := if g.awayTeam = some team then g.homeTeam else g.awayTeam
    match lookupClass toCommon confOf opponent with
    | none => r
    | some conf =>
        let teamWon := if g.awayTeam = some team then g.awayPts > g.homePts
                       else g.homePts > g.awayPts
        if conf = "Eastern" then
          if teamWon then { r with easternWins := r.easternWins + 1 }
          else { r with easternLosses := r.easternLosses + 1 }
        else if conf = "Western" then
          if teamWon then { r with westernWins := r.westernWins + 1 }
          else { r with westernLosses := r.westernLosses + 1 }
        else r

def calculateVsConferenceRecords (toCommon : String → String)
    (confOf : String → Option String) (team : String) (games : List Game) : VsConfRecord :=
  games.foldl (vsConfStep toCommon confOf team) zeroVsConf

/-- One iteration of the loops of _calculate_conference_record and
_calculate_division_record (game_header.py lines 424-461 and 488-524),
which differ only in the classification column consulted: count a
completed game exactly when the opponent classification resolves to the
teams own group; wins on a strict greater-than of the score of the side
the team of interest is assumed to be on, losses otherwise.  The pair
holds (wins, losses). -/
def groupRecordStep (toCommon : String → String) (classOf : String → Option String)
    (teamGroup team : String) (acc : Nat × Nat) (g : Game) : Nat × Nat :=
  if g.score = none ∨ g.playedStatus ≠ some "COMPLETED" then acc
  else
    let opponent := if g.awayTeam = some team then g.homeTeam else g.awayTeam
    if lookupClass toCommon classOf opponent = some teamGroup then
      if g.awayTeam = some team then
        if g.awayPts > g.homePts then (acc.1 + 1, acc.2) else (acc.1, acc.2 + 1)
      else
        if g.homePts > g.awayPts then (acc.1 + 1, acc.2) else (acc.1, acc.2 + 1)
    else acc

def calculateGroupRecord (toCommon : String → String) (classOf : String → Option String)
    (teamGroup team : String) (games : List Game) : Nat × Nat :=
  games.foldl (groupRecordStep toCommon classOf teamGroup team) (0, 0)

/-- The sort key of _calculate_recent_records_and_streak (game_header.py
line 284): the part of the game id before the first dash when the id
contains a dash, the empty string otherwise. -/
def gameIdDate (id : String) : String :=
  if id.toList.contains '-' then String.mk (id.toList.takeWhile (fun c => c ≠ '-'))
  else ""

/-- The keyed list built by _calculate_recent_records_and_streak lines
273-285: completed games only, games with an empty id are dropped, and
each kept game is paired with its id-derived date key.  The date or
startTime field of the schedule is never consulted. -/
def recentGamesKeyed (games : List Game) : List (String × Game) :=
  games.filterMap (fun g =>
    if g.score = none ∨ g.playedStatus ≠ some "COMPLETED" then none
    else if g.gameId = "" then none
    else some (gameIdDate g.gameId, g))

/-- sorted_games.sort(key by first component) of line 287: a stable
ascending sort on the id-derived date key. -/
def recentSortedGames (games : List Game) : List (String × Game) :=
  insertionSort (fun a b => ! strLt b.1 a.1) (recentGamesKeyed games)

/-- The outcome recording of lines 290-302: append True when the team of
interest wins on a strict greater-than of its score, False otherwise;
ignore games not involving the team. -/
def resultStep (team : String) (acc : List Bool) (g : Game) : List Bool :=
  if g.awayTeam = some team then acc ++ [decide (g.awayPts > g.homePts)]
  else if g.homeTeam = some team then acc ++ [decide (g.homePts > g.awayPts)]
  else acc

/-- The chronological win/loss outcome list games_results of
_calculate_recent_records_and_streak. -/
def gamesResults (team : String) (games : List Game) : List Bool :=
  (recentSortedGames games).foldl (fun acc p => resultStep team acc p.2) []

/-- The backward walk of game_header.py lines 335-339: count how many
leading entries of the reversed prefix equal the most recent outcome,
stopping at the first difference. -/
def streakLen (current : Bool) : List Bool → Nat
  | [] => 0
  | b :: rest => if b = current then 1 + streakLen current rest else 0

/-- The streak computation of game_header.py lines 329-342: the empty
string on no completed games; otherwise the letter of the most recent
outcome followed by one plus the number of immediately preceding equal
outcomes. -/
def streakOf (results : List Bool) : String :=
  match results.getLast? with
  | none => ""
  | some current =>
      let cnt := 1 + streakLen current results.dropLast.reverse
      (if current then "W" else "L") ++ toString cnt

/-- The date guard of get_h2h_season_record (game_header.py lines
553-561): skip a game exactly when its id is non-empty, contains a dash,
the part before the dash is non-empty, and that part is strictly greater
than the target date. -/
def h2hSkipByDate (gameId date : String) : Bool :=
  if gameId = "" then false
  else if gameId.toList.contains '-' then
    let gameDate := String.mk (gameId.toList.takeWhile (fun c => c ≠ '-'))
    decide (gameDate ≠ "") && strLt date gameDate
  else false

/-- The Python set comparison of line 544: the unordered pair of the away
and home abbreviations equals the unordered pair of the two teams. -/
def teamsMatch (away home : Option String) (a b : String) : Bool :=
  (away == some a && home == some b) || (away == some b && home == some a)

/-- One iteration of the loop of get_h2h_season_record (game_header.py
lines 537-575): skip games that are not between the two teams, not
completed, or dated after the target; otherwise when the away score is
strictly greater the away side is credited with the win, and in every
other case (including equal scores) the home side is credited. -/
def h2hStep (teamA teamB date : String) (acc : Nat × Nat) (g : Game) : Nat × Nat :=
  if ¬ teamsMatch g.awayTeam g.homeTeam teamA teamB = true then acc
  else if g.score = none ∨ g.playedStatus ≠ some "COMPLETED" then acc
  else if h2hSkipByDate g.gameId date then acc
  else if g.awayPts > g.homePts then
    (if g.awayTeam = some teamA then (acc.1 + 1, acc.2) else (acc.1, acc.2 + 1))
  else
    (if g.homeTeam = some teamA then (acc.1 + 1, acc.2) else (acc.1, acc.2 + 1))

/-- get_h2h_season_record as a pure fold: (team_a_wins, team_b_wins). -/
def h2hRecord (teamA teamB date : String) (games : List Game) : Nat × Nat :=
  games.foldl (h2hStep teamA teamB date) (0, 0)

/-- The date restriction sent to the games endpoint by
_calculate_home_away_records, _calculate_vs_conference_records,
_calculate_recent_records_and_streak, _calculate_conference_record and
_calculate_division_record, which all contain the identical two lines
(for example game_header.py lines 156-157): the parameter until-date is
added exactly when the date string is truthy (non-empty) and different
from the literal 20250119. -/
def untilDateParam (date : String) : Option String :=
  if date ≠ "" ∧ date ≠ "20250119" then some ("until-" ++ date) else none

theorem length_take_min (logs : List GameLog) (n : Nat) :
    (logs.take (min n logs.length)).length = min n logs.length := by
  simp [List.length_take]

theorem calculateAverages_games_included (logs : List GameLog) (n : Nat) :
    (calculateAverages logs n).games_included = min n logs.length := by
  by_cases h0 : logs.length = 0
  · simp [calculateAverages, h0, emptyStats]
  · by_cases h1 : min n logs.length = 0
    · simp [calculateAverages, h0, length_take_min, h1, emptyStats]
    · simp [calculateAverages, h0, length_take_min, h1]

theorem calculateAverages_full (logs : List GameLog) (n : Nat)
    (h : logs.length ≤ n) :
    calculateAverages logs n = calculateAverages logs logs.length := by
  unfold calculateAverages
  rw [Nat.min_eq_right h, Nat.min_self]

theorem calculateAverages_ps (logs : List GameLog) (n : Nat)
    (h : 0 < min n logs.length) :
    (calculateAverages logs n).ps =
      roundTo1 (((totalsOf (logs.take (min n logs.length))).pts : ℚ) /
        (min n logs.length : ℚ)) := by
  have h0 : ¬ logs.length = 0 := by omega
  have h1 : ¬ min n logs.length = 0 := by omega
  simp [calculateAverages, h0, length_take_min, h1]

/-- C1: calculate_averages divides summed totals by
actualGames = min(requested, available): games_included always equals
min(N, number of games), hence never exceeds either bound; when N is at
least the number of available games the whole result equals the
full-list average; and the per-game points average is the total over
the min(N, available)-game slice divided by that same count, with no
zero padding. -/
theorem C1_window_divisor (logs : List GameLog) (n : Nat) :
    (calculateAverages logs n).games_included = min n logs.length ∧
    (calculateAverages logs n).games_included ≤ n ∧
    (calculateAverages logs n).games_included ≤ logs.length ∧
    (logs.length ≤ n → calculateAverages logs n = calculateAverages logs logs.length) ∧
    (0 < min n logs.length →
      (calculateAverages logs n).ps =
        roundTo1 (((totalsOf (logs.take (min n logs.length))).pts : ℚ) /
          (min n logs.length : ℚ))) := by
  refine ⟨calculateAverages_games_included logs n, ?_, ?_, ?_, ?_⟩
  · rw [calculateAverages_games_included]; omega
  · rw [calculateAverages_games_included]; omega
  · exact calculateAverages_full logs n
  · exact calculateAverages_ps logs n

/-- A box score with only a points entry, used as a concrete input. -/
def demoStats100 : StatsBlock := { emptyStatsBlock with pts := some 100 }

def demoLogA : GameLog :=
  { startTime := "2025-01-10T00:00:00.000Z", stats := some demoStats100 }

/-- A malformed log: the stats key is missing entirely. -/
def demoLogBad : GameLog :=
  { startTime := "2025-01-12T00:00:00.000Z", stats := none }

theorem C1_window_divisor_witness :
    (calculateAverages [demoLogA] 3).games_included = min 3 [demoLogA].length ∧
    calculateAverages [demoLogA] 3 = calculateAverages [demoLogA] [demoLogA].length ∧
    (calculateAverages [demoLogA] 3).ps =
      roundTo1 (((totalsOf ([demoLogA].take (min 3 [demoLogA].length))).pts : ℚ) /
        (min 3 [demoLogA].length : ℚ)) :=
  ⟨(C1_window_divisor [demoLogA] 3).1,
   (C1_window_divisor [demoLogA] 3).2.2.2.1 (by decide),
   (C1_window_divisor [demoLogA] 3).2.2.2.2 (by decide)⟩

/-- C7: a window with zero included games (empty list or zero-size
window) yields the fully populated zero structure: the single Stats
type guarantees a uniform field set, every one of the 21 statistical
fields is 0 and the games count is 0, and no case is omitted or raises. -/
theorem C7_zero_window_uniform_shape :
    (∀ n : Nat, calculateAverages [] n = emptyStats) ∧
    (∀ logs : List GameLog, calculateAverages logs 0 = emptyStats) ∧
    (emptyStats.ps = 0 ∧ emptyStats.pa = 0 ∧ emptyStats.fg = 0 ∧
     emptyStats.fga = 0 ∧ emptyStats.fg_pct = 0 ∧ emptyStats.three_p = 0 ∧
     emptyStats.three_pa = 0 ∧ emptyStats.three_pct = 0 ∧ emptyStats.two_p = 0 ∧
     emptyStats.two_pa = 0 ∧ emptyStats.two_pct = 0 ∧ emptyStats.ft = 0 ∧
     emptyStats.fta = 0 ∧ emptyStats.ft_pct = 0 ∧ emptyStats.orb = 0 ∧
     emptyStats.drb = 0 ∧ emptyStats.trb = 0 ∧ emptyStats.ast = 0 ∧
     emptyStats.stl = 0 ∧ emptyStats.blk = 0 ∧ emptyStats.tov = 0 ∧
     emptyStats.games_included = 0) := by
  refine ⟨fun n => by simp [calculateAverages], fun logs => ?_, ?_⟩
  · by_cases h0 : logs.length = 0
    · simp [calculateAverages, h0]
    · simp [calculateAverages, h0]
  · simp [emptyStats]

/-- C3: every shooting percentage is the rounded ratio times 100 when
the summed attempts are positive and exactly 0 otherwise; the guard
means no percentage is ever produced by a division by zero (and the
per-game fields divide by the positive games count), so no field of the
output can be undefined. -/
theorem C3_percentage_guards (logs : List GameLog) (n : Nat)
    (h : 0 < min n logs.length) :
    ((0 < (totalsOf (logs.take (min n logs.length))).fgAtt →
        (calculateAverages logs n).fg_pct =
          roundTo1 (((totalsOf (logs.take (min n logs.length))).fgMade : ℚ) /
            ((totalsOf (logs.take (min n logs.length))).fgAtt : ℚ) * 100)) ∧
      (¬ 0 < (totalsOf (logs.take (min n logs.length))).fgAtt →
        (calculateAverages logs n).fg_pct = 0)) ∧
    ((0 < (totalsOf (logs.take (min n logs.length))).fg3Att →
        (calculateAverages logs n).three_pct =
          roundTo1 (((totalsOf (logs.take (min n logs.length))).fg3Made : ℚ) /
            ((totalsOf (logs.take (min n logs.length))).fg3Att : ℚ) * 100)) ∧
      (¬ 0 < (totalsOf (logs.take (min n logs.length))).fg3Att →
        (calculateAverages logs n).three_pct = 0)) ∧
    ((0 < (totalsOf (logs.take (min n logs.length))).fg2Att →
        (calculateAverages logs n).two_pct =
          roundTo1 (((totalsOf (logs.take (min n logs.length))).fg2Made : ℚ) /
            ((totalsOf (logs.take (min n logs.length))).fg2Att : ℚ) * 100)) ∧
      (¬ 0 < (totalsOf (logs.take (min n logs.length))).fg2Att →
        (calculateAverages logs n).two_pct = 0)) ∧
    ((0 < (totalsOf (logs.take (min n logs.length))).ftAtt →
        (calculateAverages logs n).ft_pct =
          roundTo1 (((totalsOf (logs.take (min n logs.length))).ftMade : ℚ) /
            ((totalsOf (logs.take (min n logs.length))).ftAtt : ℚ) * 100)) ∧
      (¬ 0 < (totalsOf (logs.take (min n logs.length))).ftAtt →
        (calculateAverages logs n).ft_pct = 0)) := by
  have h0 : ¬ logs.length = 0 := by omega
  have h1 : ¬ min n logs.length = 0 := by omega
  constructor
  · constructor
    · intro hpos
      simp [calculateAverages, h0, length_take_min, h1, hpos]
    · intro hneg
      simp [calculateAverages, h0, length_take_min, h1, hneg, roundTo1_zero]
  constructor
  · constructor
    · intro hpos
      simp [calculateAverages, h0, length_take_min, h1, hpos]
    · intro hneg
      simp [calculateAverages, h0, length_take_min, h1, hneg, roundTo1_zero]
  constructor
  · constructor
    · intro hpos
      simp [calculateAverages, h0, length_take_min, h1, hpos]
    · intro hneg
      simp [calculateAverages, h0, length_take_min, h1, hneg, roundTo1_zero]
  · constructor
    · intro hpos
      simp [calculateAverages, h0, length_take_min, h1, hpos]
    · intro hneg
      simp [calculateAverages, h0, length_take_min, h1, hneg, roundTo1_zero]

/-- A box score with points and shooting numbers, used as a concrete
input (two-point stats absent, so they are derived). -/
def demoStatsFG : StatsBlock :=
  { emptyStatsBlock with
    pts := some 100, fgMade := some 10, fgAtt := some 20,
    fg3PtMade := some 2, fg3PtAtt := some 5, ftMade := some 5, ftAtt := some 6 }

def demoLogFG : GameLog :=
  { startTime := "2025-01-08T00:00:00.000Z", stats := some demoStatsFG }

theorem C3_percentage_guards_witness :
    0 < min 3 [demoLogFG].length ∧
    (calculateAverages [demoLogFG] 3).fg_pct =
      roundTo1 (((totalsOf ([demoLogFG].take (min 3 [demoLogFG].length))).fgMade : ℚ) /
        ((totalsOf ([demoLogFG].take (min 3 [demoLogFG].length))).fgAtt : ℚ) * 100) ∧
    (calculateAverages [demoLogA] 3).fg_pct = 0 :=
  ⟨by decide,
   ((C3_percentage_guards [demoLogFG] 3 (by decide)).1).1 (by decide),
   ((C3_percentage_guards [demoLogA] 3 (by decide)).1).2 (by decide)⟩

theorem homeAwayStep_sum (team : String) (r : HomeAwayRecord) (g : Game) :
    (homeAwayStep team r g).homeWins + (homeAwayStep team r g).homeLosses +
      (homeAwayStep team r g).awayWins + (homeAwayStep team r g).awayLosses =
    r.homeWins + r.homeLosses + r.awayWins + r.awayLosses +
      (if completedInvolving team g then 1 else 0) := by
  by_cases hc : g.score = none ∨ g.playedStatus ≠ some "COMPLETED"
  · have hci : completedInvolving team g = false := by
      rcases hc with h | h
      · simp [completedInvolving, isCompleted, h]
      · simp [completedInvolving, isCompleted, h]
    simp [homeAwayStep, hc, hci]
  · have hcomp : isCompleted g = true := by
      push_neg at hc
      simp [isCompleted, hc.2, Option.isSome_iff_ne_none, hc.1]
    by_cases ha : g.awayTeam = some team
    · have hci : completedInvolving team g = true := by
        simp [completedInvolving, hcomp, ha]
      by_cases hw : g.awayPts > g.homePts <;>
        simp [homeAwayStep, hc, ha, hw, hci] <;> omega
    · by_cases hh : g.homeTeam = some team
      · have hci : completedInvolving team g = true := by
          simp [completedInvolving, hcomp, hh]
        by_cases hw : g.homePts > g.awayPts <;>
          simp [homeAwayStep, hc, ha, hh, hw, hci] <;> omega
      · have hci : completedInvolving team g = false := by
          simp [completedInvolving, isCompleted, ha, hh]
        simp [homeAwayStep, hc, ha, hh, hci]

theorem foldl_homeAway_sum (team : String) :
    ∀ (games : List Game) (r : HomeAwayRecord),
      (games.foldl (homeAwayStep team) r).homeWins +
        (games.foldl (homeAwayStep team) r).homeLosses +
        (games.foldl (homeAwayStep team) r).awayWins +
        (games.foldl (homeAwayStep team) r).awayLosses =
      r.homeWins + r.homeLosses + r.awayWins + r.awayLosses +
        games.countP (completedInvolving team) := by
  intro games
  induction games with
  | nil => intro r; simp
  | cons g gs ih =>
      intro r
      simp only [List.foldl_cons, List.countP_cons]
      have h1 := ih (homeAwayStep team r g)
      have h2 := homeAwayStep_sum team r g
      omega

/-- C5: every completed game involving the team lands in exactly one of
the four home/away tallies, so their sum equals the number of completed
games the team participated in. -/
theorem C5_home_away_partition (team : String) (games : List Game) :
    (calculateHomeAwayRecords team games).homeWins +
      (calculateHomeAwayRecords team games).homeLosses +
      (calculateHomeAwayRecords team games).awayWins +
      (calculateHomeAwayRecords team games).awayLosses =
    games.countP (completedInvolving team) := by
  have h := foldl_homeAway_sum team games zeroHomeAway
  simpa [calculateHomeAwayRecords, zeroHomeAway] using h

theorem streakLen_replicate_append (b : Bool) :
    ∀ (n : Nat) (rest : List Bool),
      streakLen b (List.replicate n b ++ rest) = n + streakLen b rest := by
  intro n
  induction n with
  | zero => intro rest; simp
  | succ m ih =>
      intro rest
      simp [List.replicate_succ, streakLen, ih]
      omega

theorem streakLen_stop (b : Bool) (rest : List Bool) :
    streakLen b ((!b) :: rest) = 0 := by
  cases b <;> simp [streakLen]

/-- C2: on a non-empty outcome list ending in a maximal run of n+1 equal
outcomes b (maximality: the run is preceded by nothing or by the
opposite outcome), the streak is the letter of b followed by n+1; on an
empty list the streak is the empty string; and the concrete example
W W L W W W yields W3. -/
theorem C2_streak_format (init : List Bool) (b : Bool) (n : Nat)
    (h : init = [] ∨ ∃ pre, init = pre ++ [!b]) :
    streakOf (init ++ List.replicate (n + 1) b) =
      (if b then "W" else "L") ++ toString (n + 1) ∧
    streakOf [] = "" ∧
    streakOf [true, true, false, true, true, true] = "W3" := by
  refine ⟨?_, rfl, by decide⟩
  have hrep : List.replicate (n + 1) b = List.replicate n b ++ [b] :=
    List.replicate_succ' n b
  rw [hrep, ← List.append_assoc]
  simp only [streakOf, List.getLast?_concat, List.dropLast_concat]
  rw [List.reverse_append, List.reverse_replicate]
  rw [streakLen_replicate_append]
  rcases h with rfl | ⟨pre, rfl⟩
  · simp [streakLen, Nat.add_comm]
  · rw [List.reverse_append]
    simp only [List.reverse_cons, List.reverse_nil, List.nil_append,
      List.singleton_append]
    rw [streakLen_stop]
    simp [Nat.add_comm]

theorem C2_streak_format_witness :
    streakOf ([false] ++ List.replicate (2 + 1) true) =
      (if true then "W" else "L") ++ toString (2 + 1) :=
  (C2_streak_format [false] true 2 (Or.inr ⟨[], by decide⟩)).1

/-- C9 counterexample: the empty date string also suppresses the
until-date restriction, although the claim allows that only for the
literal 20250119. -/
theorem C9_counterexample : untilDateParam "" = none ∧ "" ≠ "20250119" := by
  constructor
  · decide
  · decide

/-- C9 amended: the until-date restriction is omitted exactly for the
literal date 20250119 (and for the empty, falsy, date string); for every
other non-empty date the parameter until-date is sent. -/
theorem C9_until_param (d : String) (h1 : d ≠ "") (h2 : d ≠ "20250119") :
    untilDateParam "20250119" = none ∧
    untilDateParam "" = none ∧
    untilDateParam d = some ("until-" ++ d) := by
  refine ⟨by decide, by decide, ?_⟩
  simp [untilDateParam, h1, h2]

theorem C9_until_param_witness :
    untilDateParam "20250119" = none ∧
    untilDateParam "" = none ∧
    untilDateParam "20250118" = some ("until-" ++ "20250118") :=
  C9_until_param "20250118" (by decide) (by decide)

/-- A completed log dated exactly on the cutoff date. -/
def demoCutoffLog : GameLog :=
  { startTime := "2025-01-19T00:00:00.000Z", stats := some demoStats100 }

/-- C4 counterexample: a game log dated exactly on the cutoff date
20250119 is excluded from the rolling-window game logs, because the
filter of get_team_game_logs is a strict less-than; the claim asserts
it would be included. -/
theorem C4_counterexample :
    toYYYYMMDD demoCutoffLog.startTime = "20250119" ∧
    getTeamGameLogs "20250119" [demoCutoffLog] = [] := by
  constructor
  · decide
  · decide

theorem h2hStep_counted {teamA teamB date : String} {acc : Nat × Nat} {g : Game}
    (hm : teamsMatch g.awayTeam g.homeTeam teamA teamB = true)
    (hns : ¬ (g.score = none ∨ g.playedStatus ≠ some "COMPLETED"))
    (hskip : h2hSkipByDate g.gameId date = false) :
    h2hStep teamA teamB date acc g =
      if g.awayPts > g.homePts then
        (if g.awayTeam = some teamA then (acc.1 + 1, acc.2) else (acc.1, acc.2 + 1))
      else
        (if g.homeTeam = some teamA then (acc.1 + 1, acc.2) else (acc.1, acc.2 + 1)) := by
  unfold h2hStep
  rw [if_neg (by simp [hm]), if_neg hns, if_neg (by simp [hskip])]

theorem h2hSkipByDate_eq (id date : String) :
    h2hSkipByDate id date =
      (decide (gameIdDate id ≠ "") && strLt date (gameIdDate id)) := by
  by_cases hid : id = ""
  · subst hid; rfl
  · by_cases hc : id.toList.contains '-' = true
    · have hc2 : '-' ∈ id.data := by simpa using hc
      simp [h2hSkipByDate, gameIdDate, hid, hc, hc2, Bool.and_assoc]
    · have hc2 : ¬ '-' ∈ id.data := by simpa using hc
      simp [h2hSkipByDate, gameIdDate, hid, hc, hc2]

/-- C4 amended: every log kept by get_team_game_logs is dated strictly
before the cutoff (so a log dated exactly on the cutoff is excluded
from rolling windows and averages), while the head-to-head computation
is inclusive of the cutoff: a matched completed game whose id-embedded
date is not after the cutoff is counted, and a game whose id-embedded
date is strictly after the cutoff is skipped. -/
theorem C4_cutoff_semantics :
    (∀ (d : String) (logs : List GameLog) (log : GameLog),
        log ∈ getTeamGameLogs d logs →
        strLt (toYYYYMMDD log.startTime) d = true) ∧
    (∀ (teamA teamB date : String) (acc : Nat × Nat) (g : Game),
        teamsMatch g.awayTeam g.homeTeam teamA teamB = true →
        g.score ≠ none → g.playedStatus = some "COMPLETED" →
        strLt date (gameIdDate g.gameId) = false →
        (h2hStep teamA teamB date acc g).1 + (h2hStep teamA teamB date acc g).2 =
          acc.1 + acc.2 + 1) ∧
    (∀ (teamA teamB date : String) (acc : Nat × Nat) (g : Game),
        strLt date (gameIdDate g.gameId) = true →
        h2hStep teamA teamB date acc g = acc) := by
  refine ⟨?_, ?_, ?_⟩
  · intro d logs log hmem
    have h1 : log ∈ insertionSort (fun a b => ! strLt a.startTime b.startTime)
        (filterBeforeDate d logs) := by
      unfold getTeamGameLogs at hmem
      exact List.mem_of_mem_take hmem
    have h2 : log ∈ filterBeforeDate d logs := (mem_insertionSort _ _ _).mp h1
    exact (List.mem_filter.mp h2).2
  · intro teamA teamB date acc g hm hs hp hdate
    have hskip : h2hSkipByDate g.gameId date = false := by
      rw [h2hSkipByDate_eq, hdate]
      simp
    have hns : ¬ (g.score = none ∨ g.playedStatus ≠ some "COMPLETED") := by
      push_neg
      exact ⟨hs, hp⟩
    rw [h2hStep_counted hm hns hskip]
    by_cases hw : g.awayPts > g.homePts
    · by_cases ha : g.awayTeam = some teamA <;> simp [hw, ha] <;> omega
    · by_cases hh : g.homeTeam = some teamA <;> simp [hw, hh] <;> omega
  · intro teamA teamB date acc g hdate
    have hne : gameIdDate g.gameId ≠ "" := by
      intro h
      rw [h] at hdate
      simp [strLt, lexLt] at hdate
    have hskip : h2hSkipByDate g.gameId date = true := by
      rw [h2hSkipByDate_eq]
      simp [hne, hdate]
    by_cases hm : teamsMatch g.awayTeam g.homeTeam teamA teamB = true
    · by_cases hns : g.score = none ∨ g.playedStatus ≠ some "COMPLETED"
      · simp [h2hStep, hm, hns]
      · simp [h2hStep, hm, hns, hskip]
    · simp [h2hStep, hm]

/-- A completed head-to-head game dated on the cutoff, away win. -/
def demoH2hGame : Game :=
  { playedStatus := some "COMPLETED", awayTeam := some "LAL",
    homeTeam := some "BOS", gameId := "20250119-LAL-BOS",
    startTime := some "2025-01-19T00:00:00.000Z",
    score := some { awayScoreTotal := some 100, homeScoreTotal := some 90 } }

theorem C4_cutoff_semantics_witness :
    strLt (toYYYYMMDD demoLogA.startTime) "20250119" = true ∧
    (h2hStep "BOS" "LAL" "20250119" (0, 0) demoH2hGame).1 +
      (h2hStep "BOS" "LAL" "20250119" (0, 0) demoH2hGame).2 = 0 + 0 + 1 ∧
    h2hStep "BOS" "LAL" "20250101" (0, 0) demoH2hGame = (0, 0) :=
  ⟨C4_cutoff_semantics.1 "20250119" [demoLogA] demoLogA (by decide),
   C4_cutoff_semantics.2.1 "BOS" "LAL" "20250119" (0, 0) demoH2hGame
     (by decide) (by decide) (by decide) (by decide),
   C4_cutoff_semantics.2.2 "BOS" "LAL" "20250101" (0, 0) demoH2hGame (by decide)⟩

theorem strLt_false_trans (a b c : String) (h1 : strLt b a = false)
    (h2 : strLt c b = false) : strLt c a = false :=
  lexLt_false_of_false a.toList b.toList c.toList h1 h2

theorem strLt_total (a b : String) : strLt a b = false ∨ strLt b a = false := by
  by_cases h : strLt a b = true
  · right
    by_contra h2
    have h3 : strLt b a = true := by
      cases h4 : strLt b a
      · exact absurd h4 h2
      · rfl
    have h5 : lexLt a.toList a.toList = true := lexLt_trans _ _ _ h h3
    rw [lexLt_irrefl] at h5
    exact Bool.false_ne_true h5
  · left
    cases h4 : strLt a b
    · rfl
    · exact absurd h4 h

theorem isCompleted_true (g : Game)
    (hns : ¬ (g.score = none ∨ g.playedStatus ≠ some "COMPLETED")) :
    isCompleted g = true := by
  push_neg at hns
  simp [isCompleted, hns.2, Option.isSome_iff_ne_none, hns.1]

/-- A completed game whose id-embedded date is early but whose schedule
startTime is late. -/
def demoGameEarlyId : Game :=
  { playedStatus := some "COMPLETED", awayTeam := some "AAA",
    homeTeam := some "BBB", gameId := "20250110-AAA-BBB",
    startTime := some "2025-01-20T00:00:00.000Z",
    score := some { awayScoreTotal := some 100, homeScoreTotal := some 90 } }

/-- A completed game whose id-embedded date is later but whose schedule
startTime is earlier than that of demoGameEarlyId. -/
def demoGameLateId : Game :=
  { playedStatus := some "COMPLETED", awayTeam := some "CCC",
    homeTeam := some "DDD", gameId := "20250115-CCC-DDD",
    startTime := some "2025-01-05T00:00:00.000Z",
    score := some { awayScoreTotal := some 95, homeScoreTotal := some 99 } }

/-- C6 counterexample: two completed games whose startTime (date field)
order is the opposite of their game-id-prefix order are sorted by the id
prefix: the game with the strictly earlier startTime comes second.  The
date field is present and well-formed in both games, so the claim that
it takes precedence as the primary sort key is false. -/
theorem C6_counterexample :
    demoGameLateId.startTime = some "2025-01-05T00:00:00.000Z" ∧
    demoGameEarlyId.startTime = some "2025-01-20T00:00:00.000Z" ∧
    strLt "2025-01-05T00:00:00.000Z" "2025-01-20T00:00:00.000Z" = true ∧
    recentSortedGames [demoGameLateId, demoGameEarlyId] =
      [("20250110", demoGameEarlyId), ("20250115", demoGameLateId)] := by
  exact ⟨rfl, rfl, by decide, by decide⟩

/-- C6 amended: both aggregation paths sort internally with a
deterministic key, but the recent-records computation of game_header.py
sorts ascending by the date prefix of the game identifier exclusively
(completed games only, games with an empty identifier dropped; the
schedule date field is never the key), while get_team_game_logs of
rolling_stats.py sorts by the startTime date field in descending order
(most recent first). -/
theorem C6_sort_keys :
    (∀ (games : List Game) (p : String × Game),
        p ∈ recentSortedGames games →
        p.1 = gameIdDate p.2.gameId ∧ isCompleted p.2 = true ∧ p.2.gameId ≠ "") ∧
    (∀ games : List Game,
        List.Pairwise (fun p q : String × Game => strLt q.1 p.1 = false)
          (recentSortedGames games)) ∧
    (∀ (d : String) (logs : List GameLog),
        List.Pairwise (fun x y : GameLog => strLt x.startTime y.startTime = false)
          (getTeamGameLogs d logs)) := by
  refine ⟨?_, ?_, ?_⟩
  · intro games p hp
    have h1 : p ∈ recentGamesKeyed games :=
      (mem_insertionSort _ _ _).mp hp
    obtain ⟨g, hg, hf⟩ := List.mem_filterMap.mp h1
    by_cases h2 : g.score = none ∨ g.playedStatus ≠ some "COMPLETED"
    · simp [recentGamesKeyed, h2] at hf
    · by_cases h3 : g.gameId = ""
      · simp [recentGamesKeyed, h2, h3] at hf
      · simp [recentGamesKeyed, h2, h3] at hf
        subst hf
        exact ⟨rfl, isCompleted_true g h2, h3⟩
  · intro games
    have hp := pairwise_insertionSort
      (fun a b : String × Game => ! strLt b.1 a.1)
      (fun x y z hxy hyz => by
        simp only [Bool.not_eq_true'] at hxy hyz ⊢
        exact strLt_false_trans x.1 y.1 z.1 hxy hyz)
      (fun x y => by
        simp only [Bool.not_eq_true']
        exact strLt_total y.1 x.1)
      (recentGamesKeyed games)
    exact hp.imp (fun h => by simpa using h)
  · intro d logs
    have hp := pairwise_insertionSort
      (fun a b : GameLog => ! strLt a.startTime b.startTime)
      (fun x y z hxy hyz => by
        simp only [Bool.not_eq_true'] at hxy hyz ⊢
        exact strLt_false_trans z.startTime y.startTime x.startTime hyz hxy)
      (fun x y => by
        simp only [Bool.not_eq_true']
        exact strLt_total x.startTime y.startTime)
      (filterBeforeDate d logs)
    have hp2 := hp.imp
      (fun h => by simpa using h :
        ∀ {x y : GameLog}, (! strLt x.startTime y.startTime) = true →
          strLt x.startTime y.startTime = false)
    exact hp2.sublist (List.take_sublist 12 _)

/-- C8 counterexample: calculate_averages does not exclude a malformed
log (stats key missing): with one real 100-point log and one malformed
log over a 2-game window, the malformed entry is counted in
games_included and dilutes the points average from 100 to 50, although
the claim says malformed entries never contribute to any count or
average. -/
theorem C8_counterexample :
    (calculateAverages [demoLogA, demoLogBad] 2).games_included = 2 ∧
    (calculateAverages [demoLogA, demoLogBad] 2).ps = 50 ∧
    (calculateAverages [demoLogA] 1).ps = 100 := by
  refine ⟨?_, ?_, ?_⟩
  · rw [calculateAverages_games_included]
    simp
  · have h := calculateAverages_ps [demoLogA, demoLogBad] 2 (by decide)
    rw [h]
    have ht : (totalsOf ([demoLogA, demoLogBad].take
        (min 2 [demoLogA, demoLogBad].length))).pts = 100 := by decide
    rw [ht]
    norm_num
    rw [show (50 : ℚ) = ((50 : ℤ) : ℚ) from by norm_num]
    rw [roundTo1_intCast]
  · have h := calculateAverages_ps [demoLogA] 1 (by decide)
    rw [h]
    have ht : (totalsOf ([demoLogA].take (min 1 [demoLogA].length))).pts = 100 := by
      decide
    rw [ht]
    norm_num
    rw [show (100 : ℚ) = ((100 : ℤ) : ℚ) from by norm_num]
    rw [roundTo1_intCast]

/-- C8 amended: no aggregation path raises on a malformed entry (every
embedded operation is total, mirroring the dict.get defaults of the
source); the record and streak computations exclude games lacking a
score or a COMPLETED status from every tally; but calculate_averages
does not exclude malformed logs: a log with a missing stats block
contributes zero to every total yet still counts toward games_included
(which always equals min(N, number of logs supplied)) and toward the
averaging divisor. -/
theorem C8_malformed_handling :
    (∀ (team : String) (r : HomeAwayRecord) (g : Game),
        isCompleted g = false → homeAwayStep team r g = r) ∧
    (∀ (games : List Game) (p : String × Game),
        p ∈ recentGamesKeyed games → isCompleted p.2 = true) ∧
    (∀ (t : Totals) (log : GameLog), log.stats = none → addLog t log = t) ∧
    (∀ (logs : List GameLog) (n : Nat),
        (calculateAverages logs n).games_included = min n logs.length) := by
  refine ⟨?_, ?_, ?_, ?_⟩
  · intro team r g h
    have hc : g.score = none ∨ g.playedStatus ≠ some "COMPLETED" := by
      by_contra hc
      rw [isCompleted_true g hc] at h
      simp at h
    simp [homeAwayStep, hc]
  · intro games p hp
    obtain ⟨g, hg, hf⟩ := List.mem_filterMap.mp hp
    by_cases h2 : g.score = none ∨ g.playedStatus ≠ some "COMPLETED"
    · simp [recentGamesKeyed, h2] at hf
    · by_cases h3 : g.gameId = ""
      · simp [recentGamesKeyed, h2, h3] at hf
      · simp [recentGamesKeyed, h2, h3] at hf
        subst hf
        exact isCompleted_true g h2
  · intro t log h
    cases t
    simp [addLog, h, emptyStatsBlock]
  · exact calculateAverages_games_included

/-- A game that is not completed (live, no final status). -/
def demoGameLive : Game :=
  { playedStatus := some "LIVE", awayTeam := some "AAA",
    homeTeam := some "BBB", gameId := "20250110-AAA-BBB",
    startTime := none,
    score := some { awayScoreTotal := some 50, homeScoreTotal := some 40 } }

theorem C8_malformed_handling_witness :
    homeAwayStep "AAA" zeroHomeAway demoGameLive = zeroHomeAway ∧
    addLog zeroTotals demoLogBad = zeroTotals ∧
    (calculateAverages [demoLogA, demoLogBad] 2).games_included =
      min 2 [demoLogA, demoLogBad].length :=
  ⟨C8_malformed_handling.1 "AAA" zeroHomeAway demoGameLive (by decide),
   C8_malformed_handling.2.2.1 zeroTotals demoLogBad rfl,
   C8_malformed_handling.2.2.2 [demoLogA, demoLogBad] 2⟩

theorem C6_sort_keys_witness :
    (("20250110", demoGameEarlyId) : String × Game).1 =
      gameIdDate (("20250110", demoGameEarlyId) : String × Game).2.gameId ∧
    isCompleted (("20250110", demoGameEarlyId) : String × Game).2 = true ∧
    (("20250110", demoGameEarlyId) : String × Game).2.gameId ≠ "" :=
  C6_sort_keys.1 [demoGameLateId, demoGameEarlyId]
    ("20250110", demoGameEarlyId) (by decide)

theorem completed_not_skip (g : Game) (h : isCompleted g = true) :
    ¬ (g.score = none ∨ g.playedStatus ≠ some "COMPLETED") := by
  simp only [isCompleted, Bool.and_eq_true, beq_iff_eq,
    Option.isSome_iff_ne_none] at h
  push_neg
  exact h

/-- A completed game with equal final scores (impossible in real
basketball, reachable in the code), BOS at home. -/
def demoTieGame : Game :=
  { playedStatus := some "COMPLETED", awayTeam := some "LAL",
    homeTeam := some "BOS", gameId := "20250105-LAL-BOS",
    startTime := some "2025-01-05T00:00:00.000Z",
    score := some { awayScoreTotal := some 100, homeScoreTotal := some 100 } }

/-- C10 counterexample: in the head-to-head computation a completed game
with equal scores is credited as a WIN to the home team: with BOS as the
team of interest at home in a 100-100 game, the head-to-head record is
1-0 in favour of BOS, not a loss, so the claim that every record
computation counts a tied game as a loss for the team of interest is
false. -/
theorem C10_counterexample :
    demoTieGame.awayPts = demoTieGame.homePts ∧
    h2hRecord "BOS" "LAL" "20250119" [demoTieGame] = (1, 0) := by
  exact ⟨by decide, by decide⟩

/-- C10 amended: for a completed game with equal scores the single-team
record computations (home/away, vs-conference, conference/division,
last-N and streak outcome recording) never credit a win -- the strict
greater-than test fails and the game is recorded as a loss in whichever
bucket applies -- but the head-to-head computation credits a tied game
as a win to the home team (and a loss to the away team); under the
spec precondition that completed games have unequal scores the tie
branches are unreachable. -/
theorem C10_tie_handling :
    (∀ (team : String) (r : HomeAwayRecord) (g : Game),
        isCompleted g = true → g.awayPts = g.homePts →
        ((homeAwayStep team r g).homeWins = r.homeWins ∧
          (homeAwayStep team r g).awayWins = r.awayWins) ∧
        (g.awayTeam = some team →
          homeAwayStep team r g = { r with awayLosses := r.awayLosses + 1 }) ∧
        (g.awayTeam ≠ some team → g.homeTeam = some team →
          homeAwayStep team r g = { r with homeLosses := r.homeLosses + 1 })) ∧
    (∀ (toCommon : String → String) (confOf : String → Option String)
        (team : String) (r : VsConfRecord) (g : Game),
        isCompleted g = true → g.awayPts = g.homePts →
        (vsConfStep toCommon confOf team r g).easternWins = r.easternWins ∧
        (vsConfStep toCommon confOf team r g).westernWins = r.westernWins) ∧
    (∀ (toCommon : String → String) (classOf : String → Option String)
        (teamGroup team : String) (acc : Nat × Nat) (g : Game),
        isCompleted g = true → g.awayPts = g.homePts →
        (groupRecordStep toCommon classOf teamGroup team acc g).1 = acc.1 ∧
        (lookupClass toCommon classOf
            (if g.awayTeam = some team then g.homeTeam else g.awayTeam) =
              some teamGroup →
          groupRecordStep toCommon classOf teamGroup team acc g =
            (acc.1, acc.2 + 1))) ∧
    (∀ (team : String) (acc : List Bool) (g : Game),
        g.awayPts = g.homePts →
        (g.awayTeam = some team ∨ g.homeTeam = some team) →
        resultStep team acc g = acc ++ [false]) ∧
    (∀ (teamA teamB date : String) (acc : Nat × Nat) (g : Game),
        teamsMatch g.awayTeam g.homeTeam teamA teamB = true →
        isCompleted g = true → h2hSkipByDate g.gameId date = false →
        g.awayPts = g.homePts →
        (g.homeTeam = some teamA →
          h2hStep teamA teamB date acc g = (acc.1 + 1, acc.2)) ∧
        (g.homeTeam ≠ some teamA →
          h2hStep teamA teamB date acc g = (acc.1, acc.2 + 1))) := by
  refine ⟨?_, ?_, ?_, ?_, ?_⟩
  · intro team r g hcomp heq
    have hns := completed_not_skip g hcomp
    have hw1 : ¬ g.awayPts > g.homePts := by rw [heq]; exact lt_irrefl _
    have hw2 : ¬ g.homePts > g.awayPts := by rw [heq]; exact lt_irrefl _
    refine ⟨?_, ?_, ?_⟩
    · by_cases ha : g.awayTeam = some team
      · simp [homeAwayStep, hns, ha, hw1]
      · by_cases hh : g.homeTeam = some team
        · simp [homeAwayStep, hns, ha, hh, hw2]
        · simp [homeAwayStep, hns, ha, hh]
    · intro ha
      simp [homeAwayStep, hns, ha, hw1]
    · intro ha hh
      simp [homeAwayStep, hns, ha, hh, hw2]
  · intro toCommon confOf team r g hcomp heq
    have hns := completed_not_skip g hcomp
    have hw1 : ¬ g.awayPts > g.homePts := by rw [heq]; exact lt_irrefl _
    have hw2 : ¬ g.homePts > g.awayPts := by rw [heq]; exact lt_irrefl _
    by_cases ha : g.awayTeam = some team
    · cases hl : lookupClass toCommon confOf g.homeTeam with
      | none => simp [vsConfStep, hns, ha, hl]
      | some conf =>
          by_cases hce : conf = "Eastern" <;>
            by_cases hcw : conf = "Western" <;>
              simp [vsConfStep, hns, ha, hl, hce, hcw, hw1]
    · cases hl : lookupClass toCommon confOf g.awayTeam with
      | none => simp [vsConfStep, hns, ha, hl]
      | some conf =>
          by_cases hce : conf = "Eastern" <;>
            by_cases hcw : conf = "Western" <;>
              simp [vsConfStep, hns, ha, hl, hce, hcw, hw2]
  · intro toCommon classOf teamGroup team acc g hcomp heq
    have hns := completed_not_skip g hcomp
    have hw1 : ¬ g.awayPts > g.homePts := by rw [heq]; exact lt_irrefl _
    have hw2 : ¬ g.homePts > g.awayPts := by rw [heq]; exact lt_irrefl _
    constructor
    · by_cases ha : g.awayTeam = some team
      · by_cases hl : lookupClass toCommon classOf g.homeTeam = some teamGroup <;>
          simp [groupRecordStep, hns, ha, hl, hw1]
      · by_cases hl : lookupClass toCommon classOf g.awayTeam = some teamGroup <;>
          simp [groupRecordStep, hns, ha, hl, hw2]
    · intro hl
      by_cases ha : g.awayTeam = some team
      · rw [if_pos ha] at hl
        simp [groupRecordStep, hns, ha, hl, hw1]
      · rw [if_neg ha] at hl
        simp [groupRecordStep, hns, ha, hl, hw2]
  · intro team acc g heq hpart
    have hw1 : ¬ g.awayPts > g.homePts := by rw [heq]; exact lt_irrefl _
    have hw2 : ¬ g.homePts > g.awayPts := by rw [heq]; exact lt_irrefl _
    by_cases ha : g.awayTeam = some team
    · simp [resultStep, ha, hw1]
    · have hh : g.homeTeam = some team := by tauto
      simp [resultStep, ha, hh, hw2]
  · intro teamA teamB date acc g hm hcomp hskip heq
    have hns := completed_not_skip g hcomp
    have hw1 : ¬ g.awayPts > g.homePts := by rw [heq]; exact lt_irrefl _
    rw [h2hStep_counted hm hns hskip]
    constructor
    · intro hh
      simp [hw1, hh]
    · intro hh
      simp [hw1, hh]

theorem C10_tie_handling_witness :
    homeAwayStep "LAL" zeroHomeAway demoTieGame =
      { zeroHomeAway with awayLosses := zeroHomeAway.awayLosses + 1 } ∧
    resultStep "LAL" [] demoTieGame = [] ++ [false] ∧
    h2hStep "BOS" "LAL" "20250119" (0, 0) demoTieGame = ((0, 0).1 + 1, (0, 0).2) :=
  ⟨(C10_tie_handling.1 "LAL" zeroHomeAway demoTieGame (by decide) (by decide)).2.1
     (by decide),
   C10_tie_handling.2.2.2.1 "LAL" [] demoTieGame (by decide) (Or.inl (by decide)),
   (C10_tie_handling.2.2.2.2 "BOS" "LAL" "20250119" (0, 0) demoTieGame
     (by decide) (by decide) (by decide) (by decide)).1 (by decide)⟩
